import Mathlib

/-!
Verification of the inventory/equip logic of `AInventoryDemoCharacter`
(`Source/InventoryDemo/InventoryDemoCharacter.cpp`).

The character keeps a store of item handles (delegated to its
`UInventoryComponent`) and a single `EquippedItem` reference.  Item
handles are opaque (only reference identity matters), so the whole
development is parametric in the handle type `α`.
-/

namespace InventoryDemo

/-- The slot enumeration `EInventorySlotType`.
Modelled from the spec: the header declaring `EInventorySlotType` is not in
the sources; §3 of the spec gives its values as Primary, Secondary and the
sentinel Count, in that order. -/
inductive EInventorySlotType : Type where
  | Primary
  | Secondary
  | Count
deriving DecidableEq, Repr

/-- `static_cast<int>` of a slot value: underlying integer of the C++ enum
(declaration order, starting at 0). -/
def slotIndex : EInventorySlotType → Nat
  | .Primary => 0
  | .Secondary => 1
  | .Count => 2

/-- The capacity bound used by `AddInventoryItem`:
`static_cast<int32>(EInventorySlotType::Count)`, i.e. 2. -/
def maxSlots : Nat := slotIndex EInventorySlotType.Count

/-- Modelled from the spec: `UInventoryComponent::GetNumItems` is not under
the sources; per §4.1 `count()` is the number of stored items. -/
def getNumItems (store : List α) : Nat := store.length

/-- Modelled from the spec: `UInventoryComponent::GetItems` is not under the
sources; per §4.1 `items()` is the ordered, index-addressable snapshot of
the contents. -/
def getItems (store : List α) : List α := store

/-- Modelled from the spec: `UInventoryComponent::AddItem` is not under the
sources; per §4.1 `add(handle)` appends the handle to the ordered sequence
(insertion order = slot order). -/
def addItem (store : List α) (item : α) : List α := store ++ [item]

/-- The state owned by one `AInventoryDemoCharacter`: the inventory
component's store and the `EquippedItem` pointer (`none` = null). -/
structure CharState (α : Type) where
  store : List α
  equipped : Option α
deriving DecidableEq, Repr

/-- `AInventoryDemoCharacter::AddInventoryItem` (lines 158-171): reads the
old count, calls `AddItem` only when the old count is below
`static_cast<int32>(EInventorySlotType::Count)`, and returns whether the
new count strictly exceeds the old one.  Result: updated store and the
returned Bool. -/
def AddInventoryItem (store : List α) (inItem : α) : List α × Bool :=
  let oldItemCount := getNumItems store
  let store1 :=
    if oldItemCount < slotIndex EInventorySlotType.Count then
      addItem store inItem
    else
      store
  let newItemCount := getNumItems store1
  (store1, decide (newItemCount > oldItemCount))

/-- `AInventoryDemoCharacter::RemoveInventoryItem` (lines 173-176): an
empty body, hence the identity on the state. -/
def RemoveInventoryItem (s : CharState α) (inItem : α) : CharState α := s

/-- `AInventoryDemoCharacter::EquipItem` (lines 190-218): if the store is
non-empty and nothing is equipped, switch on the slot; Primary assigns
`GetItems()[0]`, Secondary assigns `GetItems()[1]` only when the count
exceeds `static_cast<int>(Secondary)`, Count assigns `GetItems()[0]`;
otherwise nothing happens.  Indexing is `List.get?`; the in-bounds theorem
below shows the `none` branch of each lookup is unreachable. -/
def EquipItem (s : CharState α) (slot : EInventorySlotType) : CharState α :=
  if getNumItems s.store > 0 then
    if s.equipped.isNone then
      match slot with
      | .Primary =>
          { s with equipped := (getItems s.store).get? (slotIndex .Primary) }
      | .Secondary =>
          if getNumItems s.store > slotIndex EInventorySlotType.Secondary then
            { s with equipped := (getItems s.store).get? (slotIndex .Secondary) }
          else
            s
      | .Count =>
          { s with equipped := (getItems s.store).get? 0 }
    else
      s
  else
    s

/-- The same control flow as `EquipItem`, with every raw index access made
fallible: a lookup out of bounds aborts with `none`.  Used to state that
every index access performed by `EquipItem` is within bounds. -/
def EquipItemChecked (s : CharState α) (slot : EInventorySlotType) :
    Option (CharState α) :=
  if getNumItems s.store > 0 then
    if s.equipped.isNone then
      match slot with
      | .Primary =>
          ((getItems s.store).get? (slotIndex .Primary)).map
            (fun it => { s with equipped := some it })
      | .Secondary =>
          if getNumItems s.store > slotIndex EInventorySlotType.Secondary then
            ((getItems s.store).get? (slotIndex .Secondary)).map
              (fun it => { s with equipped := some it })
          else
            some s
      | .Count =>
          ((getItems s.store).get? 0).map
            (fun it => { s with equipped := some it })
    else
      some s
  else
    some s

/-- `AInventoryDemoCharacter::UnequipItem` (lines 220-223): an empty body,
hence the identity on the state. -/
def UnequipItem (s : CharState α) : CharState α := s

/-- A sequence of `AddInventoryItem` calls starting from the empty store,
keeping only the resulting store. -/
def runAdds (items : List α) : List α :=
  items.foldl (fun store it => (AddInventoryItem store it).1) []

end InventoryDemo

namespace InventoryDemo

theorem foldl_addInventoryItem_length_le {α : Type} (items : List α) (store : List α)
    (h : getNumItems store ≤ maxSlots) :
    getNumItems (items.foldl (fun st it => (AddInventoryItem st it).1) store) ≤ maxSlots := by
  induction items generalizing store with
  | nil => simpa using h
  | cons x xs ih =>
      simp only [List.foldl_cons]
      apply ih
      simp only [AddInventoryItem, getNumItems, addItem, maxSlots, slotIndex] at h ⊢
      split
      · simp only [List.length_append, List.length_cons, List.length_nil]
        omega
      · omega

/-- C1: `AddInventoryItem` returns `true` iff the store's item count
strictly increased across the call, and in particular returns `false`
whenever the store was already at capacity (`maxSlots = 2`). -/
theorem addInventoryItem_result_iff_growth {α : Type} (store : List α) (item : α) :
    ((AddInventoryItem store item).2 = true ↔
      getNumItems (AddInventoryItem store item).1 > getNumItems store)
    ∧ (maxSlots ≤ getNumItems store → (AddInventoryItem store item).2 = false) := by
  constructor
  · simp [AddInventoryItem]
  · intro h
    simp only [maxSlots, slotIndex, getNumItems] at h
    unfold AddInventoryItem
    simp only [getNumItems, slotIndex]
    have hlt : ¬ store.length < 2 := by omega
    simp [hlt]

theorem addInventoryItem_result_iff_growth_witness :
    (((AddInventoryItem [0, 1] (2 : Nat)).2 = true ↔
      getNumItems (AddInventoryItem [0, 1] (2 : Nat)).1 > getNumItems [0, 1])
    ∧ (maxSlots ≤ getNumItems [0, 1] → (AddInventoryItem [0, 1] (2 : Nat)).2 = false)) :=
  addInventoryItem_result_iff_growth [0, 1] 2

/-- C2: starting from the empty store, no sequence of `AddInventoryItem`
calls can drive the count above `maxSlots = 2`; the bound `count ≤ 2` is
an invariant preserved by each call. -/
theorem addInventoryItem_capacity_invariant {α : Type} (store : List α) (item : α)
    (items : List α) (h : getNumItems store ≤ maxSlots) :
    getNumItems (AddInventoryItem store item).1 ≤ maxSlots
    ∧ getNumItems (runAdds items) ≤ maxSlots := by
  constructor
  · have := foldl_addInventoryItem_length_le [item] store h
    simpa using this
  · exact foldl_addInventoryItem_length_le items [] (by simp [getNumItems])

theorem addInventoryItem_capacity_invariant_witness :
    getNumItems [0, 1] ≤ maxSlots
    ∧ (getNumItems (AddInventoryItem [0, 1] (2 : Nat)).1 ≤ maxSlots
       ∧ getNumItems (runAdds [0, 1, 2, 3, (4 : Nat)]) ≤ maxSlots) :=
  ⟨by decide, addInventoryItem_capacity_invariant [0, 1] 2 [0, 1, 2, 3, 4] (by decide)⟩

/-- C3: when the store is already at capacity (`count ≥ 2`),
`AddInventoryItem` is a no-op: the store is unchanged and the call
returns `false`. -/
theorem addInventoryItem_at_capacity_noop {α : Type} (store : List α) (item : α)
    (h : maxSlots ≤ getNumItems store) :
    AddInventoryItem store item = (store, false) := by
  simp only [maxSlots, slotIndex, getNumItems] at h
  unfold AddInventoryItem
  simp only [getNumItems, slotIndex]
  have hlt : ¬ store.length < 2 := by omega
  simp [hlt]

theorem addInventoryItem_at_capacity_noop_witness :
    maxSlots ≤ getNumItems [10, 20]
    ∧ AddInventoryItem [10, 20] (30 : Nat) = ([10, 20], false) :=
  ⟨by decide, addInventoryItem_at_capacity_noop [10, 20] 30 (by decide)⟩

end InventoryDemo

namespace InventoryDemo

/-- C4: with an empty store (`count = 0`), `EquipItem` is a no-op for every
slot: the whole state, and in particular the equipped reference, is
unchanged. -/
theorem equipItem_empty_store_noop {α : Type} (s : CharState α)
    (slot : EInventorySlotType) (h : getNumItems s.store = 0) :
    EquipItem s slot = s ∧ (EquipItem s slot).equipped = s.equipped := by
  have hne : ¬ getNumItems s.store > 0 := by omega
  unfold EquipItem
  rw [if_neg hne]
  exact ⟨rfl, rfl⟩

theorem equipItem_empty_store_noop_witness :
    getNumItems (α := Nat) [] = 0
    ∧ (EquipItem (⟨[], none⟩ : CharState Nat) .Primary = ⟨[], none⟩
       ∧ (EquipItem (⟨[], none⟩ : CharState Nat) .Primary).equipped = none) :=
  ⟨rfl, equipItem_empty_store_noop ⟨[], none⟩ .Primary rfl⟩

/-- C5: with exactly one stored item and nothing equipped,
`EquipItem Secondary` is a no-op (the `count > 1` guard fails), so the
equipped reference stays empty. -/
theorem equipItem_secondary_single_noop {α : Type} (s : CharState α)
    (h1 : getNumItems s.store = 1) (h2 : s.equipped = none) :
    EquipItem s .Secondary = s ∧ (EquipItem s .Secondary).equipped = none := by
  have : EquipItem s .Secondary = s := by
    unfold EquipItem
    rw [if_pos (by omega)]
    simp only [h2, Option.isNone_none, if_pos]
    rw [if_neg (by simp [slotIndex]; omega)]
  exact ⟨this, by rw [this, h2]⟩

theorem equipItem_secondary_single_noop_witness :
    (getNumItems [7] = 1 ∧ (⟨[7], none⟩ : CharState Nat).equipped = none)
    ∧ (EquipItem (⟨[7], none⟩ : CharState Nat) .Secondary = ⟨[7], none⟩
       ∧ (EquipItem (⟨[7], none⟩ : CharState Nat) .Secondary).equipped = none) :=
  ⟨⟨rfl, rfl⟩, equipItem_secondary_single_noop ⟨[7], none⟩ rfl rfl⟩

/-- C6 counterexample: the claim says `UnequipItem` sets the equipped
reference back to empty; on the state with store `[0, 1]` and item `0`
equipped, `UnequipItem` (an empty function body) leaves it equipped. -/
theorem unequipItem_does_not_clear :
    ¬ ((UnequipItem (⟨[0, 1], some 0⟩ : CharState Nat)).equipped = none) := by
  decide

/-- C6 (amended): once something is equipped, every `EquipItem` call, for
any slot, is a no-op; and `UnequipItem` is itself a no-op (its body is
empty), so it leaves the equipped reference unchanged rather than
clearing it. -/
theorem equipItem_noop_while_equipped {α : Type} (s : CharState α)
    (slot : EInventorySlotType) (h : s.equipped.isSome = true) :
    EquipItem s slot = s ∧ UnequipItem s = s := by
  refine ⟨?_, rfl⟩
  obtain ⟨x, hx⟩ := Option.isSome_iff_exists.mp h
  unfold EquipItem
  rw [hx]
  simp

theorem equipItem_noop_while_equipped_witness :
    (⟨[0, 1], some 0⟩ : CharState Nat).equipped.isSome = true
    ∧ (EquipItem (⟨[0, 1], some 0⟩ : CharState Nat) .Secondary = ⟨[0, 1], some 0⟩
       ∧ UnequipItem (⟨[0, 1], some 0⟩ : CharState Nat) = ⟨[0, 1], some 0⟩) :=
  ⟨rfl, equipItem_noop_while_equipped ⟨[0, 1], some 0⟩ .Secondary rfl⟩

/-- C7: with a non-empty store and nothing equipped, `EquipItem` on the
`Count` sentinel behaves exactly like `EquipItem Primary`: it equips
`items()[0]`. -/
theorem equipItem_count_sentinel_as_primary {α : Type} (s : CharState α)
    (h1 : 0 < getNumItems s.store) (h2 : s.equipped = none) :
    EquipItem s .Count = EquipItem s .Primary
    ∧ (EquipItem s .Count).equipped = (getItems s.store).get? 0 := by
  have hcount : EquipItem s .Count =
      { s with equipped := (getItems s.store).get? 0 } := by
    unfold EquipItem
    rw [if_pos (by omega)]
    simp [h2]
  have hprim : EquipItem s .Primary =
      { s with equipped := (getItems s.store).get? 0 } := by
    unfold EquipItem
    rw [if_pos (by omega)]
    simp [h2, slotIndex]
  rw [hcount, hprim]
  exact ⟨rfl, rfl⟩

theorem equipItem_count_sentinel_as_primary_witness :
    (0 < getNumItems [5, 7] ∧ (⟨[5, 7], none⟩ : CharState Nat).equipped = none)
    ∧ (EquipItem (⟨[5, 7], none⟩ : CharState Nat) .Count
        = EquipItem (⟨[5, 7], none⟩ : CharState Nat) .Primary
       ∧ (EquipItem (⟨[5, 7], none⟩ : CharState Nat) .Count).equipped
          = (getItems [5, 7]).get? 0) :=
  ⟨⟨by decide, rfl⟩, equipItem_count_sentinel_as_primary ⟨[5, 7], none⟩ (by decide) rfl⟩

/-- C8: with a non-empty store and nothing equipped, `EquipItem Primary`
succeeds: the equipped reference becomes `items()[0]`, hence non-empty. -/
theorem equipItem_primary_success {α : Type} (s : CharState α)
    (h1 : 0 < getNumItems s.store) (h2 : s.equipped = none) :
    (EquipItem s .Primary).equipped = (getItems s.store).get? 0
    ∧ (EquipItem s .Primary).equipped.isSome = true := by
  obtain ⟨store, eq⟩ := s
  simp only at h1 h2
  subst h2
  match store with
  | [] => simp [getNumItems] at h1
  | a :: t => simp [EquipItem, getNumItems, getItems, slotIndex]

theorem equipItem_primary_success_witness :
    (0 < getNumItems [5, 7] ∧ (⟨[5, 7], none⟩ : CharState Nat).equipped = none)
    ∧ ((EquipItem (⟨[5, 7], none⟩ : CharState Nat) .Primary).equipped
        = (getItems [5, 7]).get? 0
       ∧ (EquipItem (⟨[5, 7], none⟩ : CharState Nat) .Primary).equipped.isSome = true) :=
  ⟨⟨by decide, rfl⟩, equipItem_primary_success ⟨[5, 7], none⟩ (by decide) rfl⟩

/-- C9: `RemoveInventoryItem` accepts every handle and performs no
mutation: the store, the count and the equipped reference are all
unchanged. -/
theorem removeInventoryItem_noop {α : Type} (s : CharState α) (item : α) :
    RemoveInventoryItem s item = s
    ∧ (RemoveInventoryItem s item).store = s.store
    ∧ getNumItems (RemoveInventoryItem s item).store = getNumItems s.store
    ∧ (RemoveInventoryItem s item).equipped = s.equipped :=
  ⟨rfl, rfl, rfl, rfl⟩

/-- C10: every index access `EquipItem` performs is within bounds under
its own guards: the fallible variant `EquipItemChecked`, whose lookups
abort with `none` when out of bounds, never aborts — on every state and
every slot it returns exactly `some` of what `EquipItem` computes. -/
theorem equipItemChecked_total {α : Type} (s : CharState α)
    (slot : EInventorySlotType) :
    EquipItemChecked s slot = some (EquipItem s slot) := by
  obtain ⟨store, eq⟩ := s
  cases eq with
  | some x => simp [EquipItemChecked, EquipItem]
  | none =>
      match store with
      | [] => cases slot <;> simp [EquipItemChecked, EquipItem, getNumItems]
      | [a] =>
          cases slot <;>
            simp [EquipItemChecked, EquipItem, getNumItems, getItems, slotIndex]
      | a :: b :: t =>
          cases slot <;>
            simp [EquipItemChecked, EquipItem, getNumItems, getItems, slotIndex]

end InventoryDemo
